import Mathlib

/-!
Verification development for the uniearth backend: a shallow embedding of the
fusion engine (`fusion/optical.py`, `fusion/sar_optical.py`), the temporal
aligner (`fusion/datacube.py`) and the reasoning agent (`agent/core.py`),
together with theorems settling the specification claims.

Python strings are modelled by Lean `String` (a wrapper around `List Char`);
the Python string primitives used by the code (`lower`, `strip`, `split`,
`replace`, `startswith`, `in`, `<=`) are embedded as structural recursions on
the character list, matching Python's code-point semantics.  NumPy rasters are
embedded as shape-carrying total functions into `ℚ` (the code performs exact
arithmetic in the scenarios the spec quantifies over), with NumPy's
equal-or-one broadcasting rule embedded explicitly.
-/

namespace UniEarth

/-! ### Python string primitives -/

/-- Python `str.lower` (ASCII case folding, which is all the code relies on). -/
def pyLower (s : String) : String := ⟨s.data.map Char.toLower⟩

/-- Characters stripped by Python `str.strip()` with no argument. -/
def pyWS (c : Char) : Bool :=
  c = ' ' || c = '\t' || c = '\n' || c = '\x0d' || c = '\x0b' || c = '\x0c'

/-- Python `str.strip()`: drop whitespace from both ends. -/
def pyStrip (s : String) : String :=
  ⟨((((s.data.dropWhile pyWS).reverse).dropWhile pyWS).reverse)⟩

/-- Python `s.split(sep)` for a single-character separator (the only form the
code uses, `llm_output.split('\n')`). -/
def splitCharList (sep : Char) (s : List Char) : List (List Char) :=
  s.foldr
    (fun x acc =>
      match acc with
      | [] => [[x]]
      | cur :: rest => if x = sep then [] :: cur :: rest else (x :: cur) :: rest)
    [[]]

/-- Python `s.split(sep)` on `String`, single-character separator. -/
def pySplitChar (sep : Char) (s : String) : List String :=
  (splitCharList sep s.data).map fun l => ⟨l⟩

/-- Fuelled kernel of Python `str.replace` (replace each non-overlapping
occurrence of `pat`, scanning left to right).  The fuel is instantiated with
the length of the subject string, which bounds the number of steps whenever
`pat` is non-empty (all uses in the code have non-empty patterns). -/
def replaceFuel (pat rep : List Char) : ℕ → List Char → List Char
  | 0, s => s
  | _ + 1, [] => []
  | fuel + 1, c :: rest =>
    if pat.isPrefixOf (c :: rest) then rep ++ replaceFuel pat rep fuel ((c :: rest).drop pat.length)
    else c :: replaceFuel pat rep fuel rest

/-- Python `s.replace(pat, rep)`. -/
def pyReplace (s pat rep : String) : String :=
  ⟨replaceFuel pat.data rep.data s.data.length s.data⟩

/-- Python `s.startswith(pre)`. -/
def pyStartsWith (s pre : String) : Bool := pre.data.isPrefixOf s.data

/-- Python `pat in s` (substring containment). -/
def pyContains (s pat : String) : Bool := decide (pat.data <:+: s.data)

/-! ### FusionEngine: rasters as shape-carrying functions -/

/-- A 2-dimensional NumPy array (single-band raster). -/
structure Arr2 where
  rows : ℕ
  cols : ℕ
  get : ℕ → ℕ → ℚ

/-- A 3-dimensional NumPy array (multispectral raster, `(bands, H, W)`). -/
structure Arr3 where
  chans : ℕ
  rows : ℕ
  cols : ℕ
  get : ℕ → ℕ → ℕ → ℚ

/-- `np.ones((h, w)) * v`. -/
def Arr2.const (h w : ℕ) (v : ℚ) : Arr2 := ⟨h, w, fun _ _ => v⟩

/-- `np.ones((c, h, w)) * v`. -/
def Arr3.const (c h w : ℕ) (v : ℚ) : Arr3 := ⟨c, h, w, fun _ _ _ => v⟩

/-- The elements of a 2-d array in row-major order. -/
def Arr2.vals (a : Arr2) : List ℚ :=
  (List.range a.rows).flatMap fun i => (List.range a.cols).map fun j => a.get i j

/-- The elements of a 3-d array in row-major order. -/
def Arr3.vals (a : Arr3) : List ℚ :=
  (List.range a.chans).flatMap fun k =>
    (List.range a.rows).flatMap fun i =>
      (List.range a.cols).map fun j => a.get k i j

/-- NumPy-level failures surfaced by the fusion operations. -/
inductive NpError where
  | shapeMismatch
  | broadcastError
  | emptyArray
deriving DecidableEq

/-- The `1e-6` epsilon substituted for zero intensities. -/
def npEps : ℚ := 1 / 1000000

/-- `OpticalFusion.brovey_transform` from `fusion/optical.py`: dimension check,
mean intensity with zero values replaced by `1e-6`, ratio, per-band scaling,
`np.stack` of the three scaled bands.  The explicit `ValueError` raised on a
dimension mismatch is embedded as `NpError.shapeMismatch`. -/
def brovey_transform (multispectral : Arr3) (panchromatic : Arr2) : Except NpError Arr3 :=
  if multispectral.rows = panchromatic.rows ∧ multispectral.cols = panchromatic.cols then
    let red := multispectral.get 0
    let green := multispectral.get 1
    let blue := multispectral.get 2
    let intensity := fun i j => (red i j + green i j + blue i j) / 3
    let intensityNZ := fun i j => if intensity i j = 0 then npEps else intensity i j
    let ratioArr := fun i j => panchromatic.get i j / intensityNZ i j
    Except.ok ⟨3, multispectral.rows, multispectral.cols, fun k i j =>
      (if k = 0 then red i j else if k = 1 then green i j else blue i j) * ratioArr i j⟩
  else Except.error NpError.shapeMismatch

/-- `np.clip(x, 0, 1)` on a scalar. -/
def clip01 (x : ℚ) : ℚ := min (max x 0) 1

/-- An elementwise binary operation between two 2-d arrays under NumPy's
broadcasting rule: each dimension must match or be 1; a length-1 dimension is
stretched by indexing it at 0.  Incompatible shapes raise (NumPy's broadcast
`ValueError`). -/
def bcastOp (f : ℚ → ℚ → ℚ) (a b : Arr2) : Except NpError Arr2 :=
  if (a.rows = b.rows ∨ a.rows = 1 ∨ b.rows = 1) ∧ (a.cols = b.cols ∨ a.cols = 1 ∨ b.cols = 1) then
    Except.ok ⟨(if a.rows = 1 then b.rows else a.rows), (if a.cols = 1 then b.cols else a.cols),
      fun i j =>
        f (a.get (if a.rows = 1 then 0 else i) (if a.cols = 1 then 0 else j))
          (b.get (if b.rows = 1 then 0 else i) (if b.cols = 1 then 0 else j))⟩
  else Except.error NpError.broadcastError

/-- `np.clip(a, 0, 1)` elementwise on a 2-d array. -/
def Arr2.clip (a : Arr2) : Arr2 := ⟨a.rows, a.cols, fun i j => clip01 (a.get i j)⟩

/-- `SarOpticalFusion.hsv_fusion` from `fusion/sar_optical.py`: divide an input
by 255 when its maximum exceeds 1, mean intensity with the `1e-6` zero guard,
ratio of SAR to intensity (a broadcast division — the function performs no
shape check of its own), per-band scaling clipped to `[0, 1]`, `np.stack`.
`.max()` on an empty array raises, embedded as `NpError.emptyArray`. -/
def hsv_fusion (optical_rgb : Arr3) (sar_intensity : Arr2) : Except NpError Arr3 :=
  match optical_rgb.vals.max?, sar_intensity.vals.max? with
  | some mOpt, some mSar =>
    let optNorm : Arr3 :=
      if 1 < mOpt then
        ⟨optical_rgb.chans, optical_rgb.rows, optical_rgb.cols,
          fun k i j => optical_rgb.get k i j / 255⟩
      else optical_rgb
    let sarNorm : Arr2 :=
      if 1 < mSar then
        ⟨sar_intensity.rows, sar_intensity.cols, fun i j => sar_intensity.get i j / 255⟩
      else sar_intensity
    let red : Arr2 := ⟨optical_rgb.rows, optical_rgb.cols, optNorm.get 0⟩
    let green : Arr2 := ⟨optical_rgb.rows, optical_rgb.cols, optNorm.get 1⟩
    let blue : Arr2 := ⟨optical_rgb.rows, optical_rgb.cols, optNorm.get 2⟩
    let intens : Arr2 := ⟨optical_rgb.rows, optical_rgb.cols, fun i j =>
      if (red.get i j + green.get i j + blue.get i j) / 3 = 0 then npEps
      else (red.get i j + green.get i j + blue.get i j) / 3⟩
    do
      let ratioArr ← bcastOp (fun x y => x / y) sarNorm intens
      let nr ← bcastOp (fun x y => x * y) red ratioArr
      let ng ← bcastOp (fun x y => x * y) green ratioArr
      let nb ← bcastOp (fun x y => x * y) blue ratioArr
      pure ⟨3, nr.clip.rows, nr.clip.cols, fun k i j =>
        if k = 0 then nr.clip.get i j
        else if k = 1 then ng.clip.get i j
        else nb.clip.get i j⟩
  | _, _ => Except.error NpError.emptyArray

/-! ### Fusion lemmas -/

lemma clip01_mem (x : ℚ) : 0 ≤ clip01 x ∧ clip01 x ≤ 1 :=
  ⟨le_min (le_max_right x 0) zero_le_one, min_le_right _ 1⟩

lemma exceptBind_ok {ε α β : Type} (x : Except ε α) (f : α → Except ε β) (b : β)
    (h : x >>= f = Except.ok b) : ∃ a, x = Except.ok a ∧ f a = Except.ok b := by
  cases x with
  | error e => simp [Bind.bind, Except.bind] at h
  | ok a => exact ⟨a, rfl, by simpa [Bind.bind, Except.bind] using h⟩

lemma clip_ite_mem (x y z : ℚ) (k : ℕ) :
    0 ≤ (if k = 0 then clip01 x else if k = 1 then clip01 y else clip01 z)
    ∧ (if k = 0 then clip01 x else if k = 1 then clip01 y else clip01 z) ≤ 1 := by
  split_ifs <;> exact clip01_mem _

lemma foldl_max_const (v : ℚ) : ∀ (l : List ℚ), (∀ x ∈ l, x = v) → l.foldl max v = v := by
  intro l
  induction l with
  | nil => intro _; rfl
  | cons a t ih =>
    intro hyp
    have ha : a = v := hyp a (by simp)
    subst ha
    simp only [List.foldl, max_self]
    exact ih fun x hx => hyp x (by simp [hx])

lemma max_all_eq (v : ℚ) : ∀ (l : List ℚ), l ≠ [] → (∀ x ∈ l, x = v) → l.max? = some v := by
  intro l hne hyp
  cases l with
  | nil => exact absurd rfl hne
  | cons a t =>
    have ha : a = v := hyp a (by simp)
    have hfold : (a :: t).max? = some (t.foldl max a) := rfl
    rw [hfold, ha, foldl_max_const v t fun x hx => hyp x (by simp [hx])]

lemma arr3_vals_const_mem (c h w : ℕ) (v : ℚ) :
    ∀ x ∈ (Arr3.const c h w v).vals, x = v := by
  intro x hx
  simp only [Arr3.vals, Arr3.const, List.mem_flatMap, List.mem_map] at hx
  obtain ⟨k, _, i, _, j, _, rfl⟩ := hx
  rfl

lemma arr3_vals_const_ne_nil (c h w : ℕ) (v : ℚ) (hc : 0 < c) (hh : 0 < h) (hw : 0 < w) :
    (Arr3.const c h w v).vals ≠ [] := by
  apply List.ne_nil_of_mem (a := v)
  simp only [Arr3.vals, Arr3.const, List.mem_flatMap, List.mem_map]
  exact ⟨0, by simpa using hc, 0, by simpa using hh, 0, by simpa using hw, trivial⟩

lemma arr3_max_const (c h w : ℕ) (v : ℚ) (hc : 0 < c) (hh : 0 < h) (hw : 0 < w) :
    (Arr3.const c h w v).vals.max? = some v :=
  max_all_eq v _ (arr3_vals_const_ne_nil c h w v hc hh hw) (arr3_vals_const_mem c h w v)

lemma arr2_vals_const_mem (h w : ℕ) (v : ℚ) :
    ∀ x ∈ (Arr2.const h w v).vals, x = v := by
  intro x hx
  simp only [Arr2.vals, Arr2.const, List.mem_flatMap, List.mem_map] at hx
  obtain ⟨i, _, j, _, rfl⟩ := hx
  rfl

lemma arr2_vals_const_ne_nil (h w : ℕ) (v : ℚ) (hh : 0 < h) (hw : 0 < w) :
    (Arr2.const h w v).vals ≠ [] := by
  apply List.ne_nil_of_mem (a := v)
  simp only [Arr2.vals, Arr2.const, List.mem_flatMap, List.mem_map]
  exact ⟨0, by simpa using hh, 0, by simpa using hw, trivial⟩

lemma arr2_max_const (h w : ℕ) (v : ℚ) (hh : 0 < h) (hw : 0 < w) :
    (Arr2.const h w v).vals.max? = some v :=
  max_all_eq v _ (arr2_vals_const_ne_nil h w v hh hw) (arr2_vals_const_mem h w v)

lemma brovey_const_eval (h w : ℕ) (c p : ℚ) (hc : c ≠ 0) :
    ∀ k i j, (brovey_transform (Arr3.const 3 h w c) (Arr2.const h w p)).map
      (fun o => o.get k i j) = Except.ok p := by
  intro k i j
  have h3 : (c + c + c) / 3 = c := by ring
  simp only [brovey_transform, Arr3.const, Arr2.const, and_self, if_true, Except.map, ite_self,
    h3, if_neg hc]
  rw [mul_comm, div_mul_cancel₀ p hc]

lemma hsv_const_eval (h w : ℕ) (hh : 0 < h) (hw : 0 < w) (a s : ℚ)
    (hA : ¬ 1 < a) (hS : ¬ 1 < s) :
    hsv_fusion (Arr3.const 3 h w a) (Arr2.const h w s) =
      Except.ok ⟨3, h, w, fun k _ _ =>
        if k = 0 then clip01 (a * (s / (if (a + a + a) / 3 = 0 then npEps else (a + a + a) / 3)))
        else if k = 1 then
          clip01 (a * (s / (if (a + a + a) / 3 = 0 then npEps else (a + a + a) / 3)))
        else clip01 (a * (s / (if (a + a + a) / 3 = 0 then npEps else (a + a + a) / 3)))⟩ := by
  rw [hsv_fusion]
  rw [arr3_max_const 3 h w a (by norm_num) hh hw, arr2_max_const h w s hh hw]
  simp only [Arr3.const, Arr2.const, if_neg hA, if_neg hS, bcastOp, and_self, or_true, true_or,
    if_true, Arr2.clip, Except.bind, bind, pure, Except.pure, ite_self]

/-! ### Claim C1 (corrected): Brovey constant-raster identity -/

/-- Claim C1, amended: whenever all three multispectral bands equal a constant
`c ≠ 0` and the panchromatic raster equals a constant `p`, every output element
of `brovey_transform` equals exactly `p`; in particular the spec fixture
`fuse_optical(ones(3,10,10)*50, ones(10,10)*100)` is everywhere `100`.  (The
restriction `c ≠ 0` is forced: for `c = 0` the zero-intensity guard substitutes
`1e-6` and every output element is `0`, see the counterexample.) -/
theorem claim_C1 :
    (∀ (h w : ℕ) (c p : ℚ), c ≠ 0 → ∀ k i j,
      (brovey_transform (Arr3.const 3 h w c) (Arr2.const h w p)).map
        (fun o => o.get k i j) = Except.ok p)
    ∧ (∀ k i j, (brovey_transform (Arr3.const 3 10 10 50) (Arr2.const 10 10 100)).map
        (fun o => o.get k i j) = Except.ok 100) :=
  ⟨fun h w c p hc => brovey_const_eval h w c p hc,
   brovey_const_eval 10 10 50 100 (by norm_num)⟩

/-- Claim C1 as frozen is false: with all bands constant `c = 0` and pan
constant `p = 100` (a pair covered by its universal quantification), the output
element is `0`, not `100`. -/
theorem claim_C1_cex :
    (brovey_transform (Arr3.const 3 1 1 0) (Arr2.const 1 1 100)).map
      (fun o => o.get 0 0 0) = Except.ok 0
    ∧ (0 : ℚ) ≠ 100 := by
  constructor
  · simp [brovey_transform, Arr3.const, Arr2.const, Except.map]
  · norm_num

/-- Witness for `claim_C1` at the spec fixture. -/
theorem claim_C1_witness :
    (brovey_transform (Arr3.const 3 10 10 50) (Arr2.const 10 10 100)).map
      (fun o => o.get 0 0 0) = Except.ok 100 :=
  claim_C1.1 10 10 50 100 (by norm_num) 0 0 0

/-! ### Claim C5 (confirmed): SAR output clamped to [0, 1] -/

/-- Claim C5: every element of a successful `hsv_fusion` result lies in
`[0, 1]`, and the spec fixture `fuse_sar(ones(3,10,10)*0.5, ones(10,10)*0.9)`
is everywhere `0.9`. -/
theorem claim_C5 :
    (∀ (opt : Arr3) (sar : Arr2) (out : Arr3), hsv_fusion opt sar = Except.ok out →
      ∀ k i j, 0 ≤ out.get k i j ∧ out.get k i j ≤ 1)
    ∧ (∀ k i j, (hsv_fusion (Arr3.const 3 10 10 (1/2)) (Arr2.const 10 10 (9/10))).map
        (fun o => o.get k i j) = Except.ok (9/10)) := by
  constructor
  · intro opt sar out hok k i j
    rw [hsv_fusion] at hok
    split at hok
    · obtain ⟨ratioArr, h1, hok⟩ := exceptBind_ok _ _ _ hok
      obtain ⟨nr, h2, hok⟩ := exceptBind_ok _ _ _ hok
      obtain ⟨ng, h3, hok⟩ := exceptBind_ok _ _ _ hok
      obtain ⟨nb, h4, hok⟩ := exceptBind_ok _ _ _ hok
      simp only [pure, Except.pure, Except.ok.injEq] at hok
      subst hok
      dsimp only [Arr2.clip]
      exact clip_ite_mem _ _ _ _
    · cases hok
  · intro k i j
    rw [hsv_const_eval 10 10 (by norm_num) (by norm_num) (1/2) (9/10) (by norm_num) (by norm_num)]
    have hne : ((1:ℚ)/2 + 1/2 + 1/2) / 3 ≠ 0 := by norm_num
    simp only [Except.map, if_neg hne, ite_self]
    have : ((1:ℚ)/2 + 1/2 + 1/2) / 3 = 1/2 := by norm_num
    rw [this]
    have hval : (1:ℚ)/2 * ((9/10) / (1/2)) = 9/10 := by norm_num
    rw [hval]
    have : clip01 (9/10) = 9/10 := by
      simp only [clip01]
      rw [max_eq_left (by norm_num), min_eq_left (by norm_num)]
    rw [this]

/-! ### Claim C4 (corrected): behaviour on mismatched spatial shapes -/

lemma hsv_broadcastable_mismatch : ∀ k i j,
    (hsv_fusion (Arr3.const 3 2 2 (1/2)) (Arr2.const 1 1 (9/10))).map
      (fun o => o.get k i j) = Except.ok (9/10) := by
  intro k i j
  rw [hsv_fusion, arr3_max_const 3 2 2 (1/2) (by norm_num) (by norm_num) (by norm_num),
    arr2_max_const 1 1 (9/10) (by norm_num) (by norm_num)]
  have hval : clip01 ((1/2 : ℚ) * ((9/10) / (1/2))) = 9/10 := by
    rw [show ((1:ℚ)/2) * ((9/10) / (1/2)) = 9/10 by norm_num]
    unfold clip01
    rw [max_eq_left (by norm_num), min_eq_left (by norm_num)]
  have hval2 : clip01 ((9:ℚ)/10) = 9/10 := by
    unfold clip01
    rw [max_eq_left (by norm_num), min_eq_left (by norm_num)]
  norm_num [bcastOp, Arr3.const, Arr2.const, Bind.bind, Except.bind, Except.map, Arr2.clip,
    pure, Except.pure, npEps, hval, hval2, ite_self]

/-- Claim C4, amended: `brovey_transform` rejects every spatial-shape mismatch
with `ShapeMismatch` (including the spec's `(10,10)` vs `(8,8)` fixture), but
`hsv_fusion` performs no shape check of its own: a non-broadcastable mismatch
such as `(10,10)` vs `(8,8)` fails only with NumPy's broadcast error, and a
broadcastable mismatch such as spatial `(2,2)` vs `(1,1)` is silently broadcast
and succeeds. -/
theorem claim_C4 :
    (∀ (ms : Arr3) (pan : Arr2), ¬(ms.rows = pan.rows ∧ ms.cols = pan.cols) →
      brovey_transform ms pan = Except.error NpError.shapeMismatch)
    ∧ brovey_transform (Arr3.const 3 10 10 50) (Arr2.const 8 8 100)
        = Except.error NpError.shapeMismatch
    ∧ (hsv_fusion (Arr3.const 3 10 10 (1/2)) (Arr2.const 8 8 (9/10))).map
        (fun o => o.get 0 0 0) = Except.error NpError.broadcastError
    ∧ (∀ k i j, (hsv_fusion (Arr3.const 3 2 2 (1/2)) (Arr2.const 1 1 (9/10))).map
        (fun o => o.get k i j) = Except.ok (9/10)) := by
  refine ⟨?_, ?_, ?_, hsv_broadcastable_mismatch⟩
  · intro ms pan hne
    rw [brovey_transform, if_neg hne]
  · rw [brovey_transform, if_neg (by norm_num [Arr3.const, Arr2.const])]
  · rw [hsv_fusion, arr3_max_const 3 10 10 (1/2) (by norm_num) (by norm_num) (by norm_num),
      arr2_max_const 8 8 (9/10) (by norm_num) (by norm_num)]
    norm_num [bcastOp, Arr3.const, Arr2.const, Bind.bind, Except.bind, Except.map]

/-- Claim C4 as frozen is false: spatial shapes `(2,2)` and `(1,1)` differ, yet
`hsv_fusion` succeeds (NumPy silently broadcasts the SAR raster) instead of
failing. -/
theorem claim_C4_cex :
    (hsv_fusion (Arr3.const 3 2 2 (1/2)) (Arr2.const 1 1 (9/10))).map
      (fun o => o.get 0 0 0) = Except.ok (9/10)
    ∧ (2 : ℕ) ≠ 1 :=
  ⟨hsv_broadcastable_mismatch 0 0 0, by norm_num⟩

/-- Witness for `claim_C4` at the spec's mismatched-shape fixture. -/
theorem claim_C4_witness :
    brovey_transform (Arr3.const 3 10 10 50) (Arr2.const 8 8 100)
      = Except.error NpError.shapeMismatch :=
  claim_C4.1 (Arr3.const 3 10 10 50) (Arr2.const 8 8 100)
    (by norm_num [Arr3.const, Arr2.const])

/-- Witness for `claim_C5` at the spec fixture. -/
theorem claim_C5_witness :
    ∃ out, hsv_fusion (Arr3.const 3 10 10 (1/2)) (Arr2.const 10 10 (9/10)) = Except.ok out
      ∧ 0 ≤ out.get 0 0 0 ∧ out.get 0 0 0 ≤ 1 := by
  refine ⟨_, hsv_const_eval 10 10 (by norm_num) (by norm_num) (1/2) (9/10) (by norm_num)
    (by norm_num), ?_⟩
  exact claim_C5.1 _ _ _ (hsv_const_eval 10 10 (by norm_num) (by norm_num) (1/2) (9/10)
    (by norm_num) (by norm_num)) 0 0 0

/-! ### TemporalAligner: `fusion/datacube.py` -/

/-- An input metadata layer (the dictionary fields `create_cube` reads). -/
structure SensorLayer where
  id : String
  sensor : Option String
  date : String
deriving DecidableEq

/-- One aligned entry of the produced cube. -/
structure AlignedLayer where
  layer_id : String
  sensor : Option String
  delta_days : ℤ
  fusion_confidence : ℚ
deriving DecidableEq

/-- The virtual cube structure returned by `create_cube`. -/
structure DataCube where
  cube_id : String
  base_resolution : ℚ
  layers : List AlignedLayer
  status : String
deriving DecidableEq

/-- Failures of `create_cube`.  `indexError` is the uncaught Python
`IndexError` raised by `layers[0]` on an empty list.  `emptyInput` is modelled
from the spec: the distinguishable `EmptyInput` error named by the §4.4
contract; nothing in the code raises it. -/
inductive CubeError where
  | indexError
  | emptyInput
deriving DecidableEq

/-- Value of a decimal-digit string. -/
def digitsVal (cs : List Char) : ℕ := cs.foldl (fun n c => n * 10 + (c.toNat - 48)) 0

/-- Days since 1970-01-01 of the civil date `(y, m, d)` (proleptic Gregorian,
the arithmetic underlying Python `datetime`). -/
def daysFromCivil (y m d : ℤ) : ℤ :=
  let yy := y - (if m ≤ 2 then 1 else 0)
  let era := Int.fdiv yy 400
  let yoe := yy - era * 400
  let doy := Int.fdiv (153 * ((m + 9) % 12) + 2) 5 + d - 1
  let doe := yoe * 365 + Int.fdiv yoe 4 - Int.fdiv yoe 100 + doy
  era * 146097 + doe - 719468

/-- `datetime.fromisoformat` on the strings the code feeds it
(`YYYY-MM-DDTHH:MM:SS`, an optional fractional-second part `.f` of one or more
digits — digits beyond six are truncated, fewer are right-padded, exactly as
Python parses them — and an optional `+HH:MM`/`-HH:MM` offset, which may follow
the fraction; the code has already run `replace('Z', '+00:00')`), returned as
POSIX microseconds so that fractional seconds are preserved. -/
def fromIso (s : String) : ℤ :=
  let cs := s.data
  let num := fun (off len : ℕ) => (digitsVal ((cs.drop off).take len) : ℤ)
  let days := daysFromCivil (num 0 4) (num 5 2) (num 8 2)
  let secs := days * 86400 + num 11 2 * 3600 + num 14 2 * 60 + num 17 2
  let rest := cs.drop 19
  let fracDigits := if rest.head? = some '.' then (rest.drop 1).takeWhile Char.isDigit else []
  let micro : ℤ := (digitsVal ((fracDigits ++ ['0', '0', '0', '0', '0', '0']).take 6) : ℤ)
  let offRest := if rest.head? = some '.' then (rest.drop 1).dropWhile Char.isDigit else rest
  let offNum := fun (off len : ℕ) => (digitsVal ((offRest.drop off).take len) : ℤ)
  let offSecs : ℤ :=
    match offRest with
    | '+' :: _ => offNum 1 2 * 3600 + offNum 4 2 * 60
    | '-' :: _ => -(offNum 1 2 * 3600 + offNum 4 2 * 60)
    | _ => 0
  (secs - offSecs) * 1000000 + micro

/-- `datetime.fromisoformat(layer['date'].replace('Z', '+00:00'))`, as POSIX
microseconds. -/
def dateToTime (s : String) : ℤ := fromIso (pyReplace s "Z" "+00:00")

/-- The sort key relation of `layers.sort(key=lambda x: x.get('date', ''))`:
Python's lexicographic code-point comparison of the date strings. -/
def dateLe (a b : SensorLayer) : Prop := a.date.data ≤ b.date.data

instance : DecidableRel dateLe := fun a b => inferInstanceAs (Decidable (a.date.data ≤ b.date.data))

instance : IsTotal SensorLayer dateLe := ⟨fun a b => le_total a.date.data b.date.data⟩

instance : IsTrans SensorLayer dateLe := ⟨fun _ _ _ hab hbc => le_trans hab hbc⟩

/-- The aligned entry built for `layer` inside `create_cube`:
`diff = abs((layer_time - base_time).days)` (Python `timedelta.days` floors),
`confidence = max(0.0, 1.0 - diff * 0.1)`. -/
def alignLayer (baseTime : ℤ) (l : SensorLayer) : AlignedLayer :=
  let diff : ℤ := |Int.fdiv (dateToTime l.date - baseTime) 86400000000|
  { layer_id := l.id, sensor := l.sensor, delta_days := diff,
    fusion_confidence := max 0 (1 - (diff : ℚ) * (1/10)) }

/-- `DataCubeBuilder.create_cube` from `fusion/datacube.py`.  The list is
sorted in place by date string (Python's stable sort, embedded as a stable
insertion sort); the first component of the result is the mutated caller list.
`layers[0]` on the empty sorted list raises `IndexError`. -/
def create_cube (target_resolution : ℚ) (layers : List SensorLayer) :
    List SensorLayer × Except CubeError DataCube :=
  let sorted := List.insertionSort dateLe layers
  match sorted with
  | [] => (sorted, Except.error CubeError.indexError)
  | base :: _ =>
    let baseTime := dateToTime base.date
    let aligned := sorted.map (alignLayer baseTime)
    (sorted, Except.ok
      { cube_id := "cube_" ++ base.id
      , base_resolution := target_resolution
      , layers := aligned
      , status := if 1 < aligned.length then "ready_for_fusion" else "insufficient_data" })

/-- The spec-side delta: the absolute whole-day distance between a layer's
timestamp and the base timestamp. -/
def specDelta (base l : SensorLayer) : ℤ :=
  Int.fdiv |dateToTime l.date - dateToTime base.date| 86400000000

/-- The spec-side aligned entry: absolute day distance and linear decay. -/
def alignSpec (base l : SensorLayer) : AlignedLayer :=
  { layer_id := l.id, sensor := l.sensor, delta_days := specDelta base l,
    fusion_confidence := max 0 (1 - (specDelta base l : ℚ) * (1/10)) }

/-- The spec's TemporalAligner fixture, first layer. -/
def s2Fix : SensorLayer := ⟨"s2_scene_1", some "Sentinel-2", "2024-01-05T10:00:00Z"⟩

/-- The spec's TemporalAligner fixture, second layer. -/
def liss4Fix : SensorLayer := ⟨"liss4_scene_1", some "LISS-IV", "2024-01-03T10:00:00Z"⟩

/-- The cube the spec fixture should produce. -/
def fixtureCube : DataCube :=
  { cube_id := "cube_liss4_scene_1", base_resolution := 10,
    layers := [⟨"liss4_scene_1", some "LISS-IV", 0, 1⟩,
               ⟨"s2_scene_1", some "Sentinel-2", 2, 8/10⟩],
    status := "ready_for_fusion" }

/-! ### Datacube lemmas and claims C8, C9, C10 -/

lemma insertionSort_fixture :
    List.insertionSort dateLe [s2Fix, liss4Fix] = [liss4Fix, s2Fix] := by
  simp only [List.insertionSort, List.orderedInsert]
  rw [if_neg (by decide)]

lemma create_cube_fixture :
    create_cube 10 [s2Fix, liss4Fix] = ([liss4Fix, s2Fix], Except.ok fixtureCube) := by
  rw [create_cube]
  simp only [insertionSort_fixture]
  have hself : alignLayer (dateToTime liss4Fix.date) liss4Fix
      = ⟨"liss4_scene_1", some "LISS-IV", 0, 1⟩ := by
    simp only [alignLayer, sub_self, Int.zero_fdiv, abs_zero, liss4Fix]
    norm_num
  have hs2 : alignLayer (dateToTime liss4Fix.date) s2Fix
      = ⟨"s2_scene_1", some "Sentinel-2", 2, 8/10⟩ := by
    simp only [alignLayer, s2Fix, liss4Fix]
    rw [show dateToTime "2024-01-05T10:00:00Z" - dateToTime "2024-01-03T10:00:00Z" = 172800000000
      from by decide]
    rw [show Int.fdiv (172800000000 : ℤ) 86400000000 = 2 from by decide]
    norm_num
  simp only [List.map_cons, List.map_nil, hself, hs2, fixtureCube, Prod.mk.injEq,
    Except.ok.injEq, DataCube.mk.injEq]
  exact ⟨trivial, by decide, trivial, trivial, by decide⟩

/-- Claim C8, amended: `create_cube` applied to zero layers does fail, but with
the generic uncaught `IndexError` from `layers[0]` on the empty sorted list,
not with a distinguishable `EmptyInput` error. -/
theorem claim_C8 : ∀ (r : ℚ), (create_cube r []).2 = Except.error CubeError.indexError :=
  fun _ => rfl

/-- Claim C8 as frozen is false: on zero layers the failure is the generic
`IndexError`, not the spec's dedicated `EmptyInput`. -/
theorem claim_C8_cex :
    (create_cube 10 []).2 = Except.error CubeError.indexError
    ∧ (create_cube 10 []).2 ≠ Except.error CubeError.emptyInput := by
  refine ⟨rfl, fun h => ?_⟩
  have h2 : CubeError.indexError = CubeError.emptyInput := Except.error.inj h
  cases h2

/-- First layer of the counterexample to the frozen claim C9: an in-domain
ISO-8601 timezone-aware date with fractional seconds, as the STAC connectors
emit. -/
def fracLayer : SensorLayer := ⟨"frac_scene", some "Sentinel-2", "2024-01-05T10:00:00.500000Z"⟩

/-- Second layer of the counterexample to the frozen claim C9: the same
instant rounded down to whole seconds — 0.5 s earlier than `fracLayer`. -/
def plainLayer : SensorLayer := ⟨"plain_scene", some "LISS-IV", "2024-01-05T10:00:00Z"⟩

/-- Claim C9 as frozen is false on the code: for the dates
`10:00:00.500000Z` and `10:00:00Z` (0.5 s apart), the string sort makes the
fractional — strictly later — layer the base, so the base is not the
earliest-dated layer; and the other entry gets `delta_days = 1` with
confidence `0.9` (`timedelta.days` floors the signed −0.5 s to −1 before the
`abs`), although the absolute whole-day distance between the two dates is 0. -/
theorem claim_C9_cex :
    (create_cube 10 [plainLayer, fracLayer]).2
      = Except.ok
        { cube_id := "cube_frac_scene", base_resolution := 10,
          layers := [⟨"frac_scene", some "Sentinel-2", 0, 1⟩,
                     ⟨"plain_scene", some "LISS-IV", 1, 9/10⟩],
          status := "ready_for_fusion" }
    ∧ dateToTime plainLayer.date < dateToTime fracLayer.date
    ∧ Int.fdiv |dateToTime plainLayer.date - dateToTime fracLayer.date| 86400000000 = 0 := by
  refine ⟨?_, by decide, by decide⟩
  have hsort : List.insertionSort dateLe [plainLayer, fracLayer] = [fracLayer, plainLayer] := by
    simp only [List.insertionSort, List.orderedInsert]
    rw [if_neg (by decide)]
  rw [create_cube]
  simp only [hsort]
  have hself : alignLayer (dateToTime fracLayer.date) fracLayer
      = ⟨"frac_scene", some "Sentinel-2", 0, 1⟩ := by
    simp only [alignLayer, sub_self, Int.zero_fdiv, abs_zero, fracLayer]
    norm_num
  have hplain : alignLayer (dateToTime fracLayer.date) plainLayer
      = ⟨"plain_scene", some "LISS-IV", 1, 9/10⟩ := by
    simp only [alignLayer, plainLayer, fracLayer]
    rw [show dateToTime "2024-01-05T10:00:00Z" - dateToTime "2024-01-05T10:00:00.500000Z"
      = -500000 from by decide]
    rw [show Int.fdiv (-500000 : ℤ) 86400000000 = -1 from by decide]
    norm_num
  simp only [List.map_cons, List.map_nil, hself, hplain, Except.ok.injEq, DataCube.mk.injEq]
  exact ⟨by decide, trivial, trivial, by decide⟩

/-- Claim C9, amended: for every non-empty input whose date strings order
consistently with their parsed timestamps (true, e.g., of dates uniformly in
the second-precision `YYYY-MM-DDTHH:MM:SSZ` form of the spec fixture, but not
of every timezone-aware ISO-8601 string: fractional seconds or mixed UTC
offsets can break the agreement, and with it the claim — see the
counterexample), the sorted-first layer is the earliest-dated base; its own
entry has `delta_days = 0` and confidence `1.0`; every entry carries the
absolute whole-day distance to the base date and the linear decay
`max(0, 1 - delta_days * 0.1)`; the status is `ready_for_fusion` exactly for
more than one layer; and `cube_id` is `"cube_"` plus the base id.  The spec's
two-layer fixture produces exactly the expected cube. -/
theorem claim_C9 (r : ℚ) (l0 : SensorLayer) (ls : List SensorLayer)
    (hmono : ∀ a ∈ l0 :: ls, ∀ b ∈ l0 :: ls, dateLe a b → dateToTime a.date ≤ dateToTime b.date) :
    (∃ base rest, List.insertionSort dateLe (l0 :: ls) = base :: rest
      ∧ base ∈ l0 :: ls
      ∧ (∀ x ∈ l0 :: ls, dateToTime base.date ≤ dateToTime x.date)
      ∧ (create_cube r (l0 :: ls)).2 = Except.ok
          { cube_id := "cube_" ++ base.id
          , base_resolution := r
          , layers := (base :: rest).map (alignSpec base)
          , status := if 0 < ls.length then "ready_for_fusion" else "insufficient_data" }
      ∧ alignSpec base base = ⟨base.id, base.sensor, 0, 1⟩)
    ∧ create_cube 10 [s2Fix, liss4Fix] = ([liss4Fix, s2Fix], Except.ok fixtureCube) := by
  refine ⟨?_, create_cube_fixture⟩
  have hperm : (List.insertionSort dateLe (l0 :: ls)).Perm (l0 :: ls) :=
    List.perm_insertionSort _ _
  have hlen : (List.insertionSort dateLe (l0 :: ls)).length = (l0 :: ls).length :=
    hperm.length_eq
  obtain ⟨base, rest, hbr⟩ :
      ∃ b rs, List.insertionSort dateLe (l0 :: ls) = b :: rs := by
    cases hs : List.insertionSort dateLe (l0 :: ls) with
    | nil => rw [hs] at hlen; simp at hlen
    | cons b rs => exact ⟨b, rs, rfl⟩
  have hsort : List.Sorted dateLe (base :: rest) := by
    rw [← hbr]; exact List.sorted_insertionSort _ _
  have hmem : base ∈ l0 :: ls := hperm.mem_iff.mp (by rw [hbr]; exact List.mem_cons_self _ _)
  have hmin : ∀ x ∈ l0 :: ls, dateLe base x := by
    intro x hx
    have hx2 : x ∈ base :: rest := by rw [← hbr]; exact hperm.mem_iff.mpr hx
    rcases List.mem_cons.mp hx2 with h | h
    · subst h; exact le_refl _
    · exact (List.sorted_cons.mp hsort).1 x h
  have hminT : ∀ x ∈ l0 :: ls, dateToTime base.date ≤ dateToTime x.date :=
    fun x hx => hmono base hmem x hx (hmin x hx)
  refine ⟨base, rest, hbr, hmem, hminT, ?_, ?_⟩
  · rw [create_cube]
    simp only [hbr]
    have hmap : (base :: rest).map (alignLayer (dateToTime base.date))
        = (base :: rest).map (alignSpec base) := by
      apply List.map_congr_left
      intro x hx
      have hxmem : x ∈ l0 :: ls := hperm.mem_iff.mp (by rw [hbr]; exact hx)
      have ht : dateToTime base.date ≤ dateToTime x.date := hminT x hxmem
      have hnn : (0 : ℤ) ≤ dateToTime x.date - dateToTime base.date := sub_nonneg.mpr ht
      have h1 : |dateToTime x.date - dateToTime base.date|
          = dateToTime x.date - dateToTime base.date := abs_of_nonneg hnn
      have h2 : |Int.fdiv (dateToTime x.date - dateToTime base.date) 86400000000|
          = Int.fdiv (dateToTime x.date - dateToTime base.date) 86400000000 :=
        abs_of_nonneg (Int.fdiv_nonneg hnn (by norm_num))
      simp only [alignLayer, alignSpec, specDelta, h1, h2]
    rw [hmap]
    have hlen2 : ((base :: rest).map (alignSpec base)).length = ls.length + 1 := by
      rw [List.length_map]
      have : (base :: rest).length = (l0 :: ls).length := by rw [← hbr]; exact hlen
      simpa using this
    rw [hlen2]
    have hif : (if 1 < ls.length + 1 then "ready_for_fusion" else "insufficient_data")
        = (if 0 < ls.length then "ready_for_fusion" else "insufficient_data") :=
      if_congr (by omega) rfl rfl
    rw [hif]
  · simp only [alignSpec, specDelta, sub_self, abs_zero, Int.zero_fdiv]
    norm_num

/-- Witness for `claim_C9` at the spec fixture. -/
theorem claim_C9_witness :
    create_cube 10 [s2Fix, liss4Fix] = ([liss4Fix, s2Fix], Except.ok fixtureCube) :=
  (claim_C9 10 s2Fix [liss4Fix] (by decide)).2

/-- Claim C10: `create_cube` mutates its argument — after the call the
caller's list is the stable ascending sort of its input by date string: a
permutation of the input, sorted under the date-string order, and on the spec
fixture the observed order `[liss4, s2]` differs from the passed order
`[s2, liss4]`. -/
theorem claim_C10 :
    (∀ (r : ℚ) (layers : List SensorLayer),
      ((create_cube r layers).1).Perm layers
      ∧ List.Sorted dateLe (create_cube r layers).1)
    ∧ (create_cube 10 [s2Fix, liss4Fix]).1 = [liss4Fix, s2Fix]
    ∧ [liss4Fix, s2Fix] ≠ [s2Fix, liss4Fix] := by
  have hfst : ∀ (r : ℚ) (layers : List SensorLayer),
      (create_cube r layers).1 = List.insertionSort dateLe layers := by
    intro r layers
    rw [create_cube]
    cases List.insertionSort dateLe layers with
    | nil => rfl
    | cons b rs => rfl
  refine ⟨fun r layers => ?_, ?_, by decide⟩
  · rw [hfst]
    exact ⟨List.perm_insertionSort _ _, List.sorted_insertionSort _ _⟩
  · rw [hfst, insertionSort_fixture]

/-! ### ReasoningController and LLMGateway: `agent/core.py` -/

/-- The result dictionary produced by `reason_and_act`. -/
structure AgentResult where
  query : String
  thoughts : List String
  actions : List String
  answer : String
  agent_persona : String
deriving DecidableEq

/-- The agent's mutable state: the response cache (`self.cache`, keyed by the
normalized query) together with a counter of gateway invocations, which makes
"no second model invocation" observable. -/
structure AgentState where
  cache : List (String × AgentResult)
  llmCalls : ℕ
deriving DecidableEq

/-- `user_query.lower().strip()` — the cache key. -/
def normalizeQuery (q : String) : String := pyStrip (pyLower q)

/-- The fixed system directive from `agent/prompts.py`.  Its text is opaque to
every claim (it is only concatenated into the prompt handed to the model
oracle, which no claim inspects), so it is abbreviated to its first line. -/
def SYSTEM_PROMPT : String :=
  "You are the Sat-Fusion-AI, an autonomous Geospatial Intelligence Architect."

/-- The prompt constructed by `reason_and_act` (the `CONTEXT:` block renders
the context mapping when one is passed). -/
def buildPrompt (q : String) (ctx : Option String) : String :=
  SYSTEM_PROMPT ++ "\n\nUSER QUERY: " ++ q ++ "\n\n" ++
    (match ctx with
     | some c => "CONTEXT: " ++ c ++ "\n\n"
     | none => "") ++ "Reasoning Trace:"

/-- One iteration of the output-parsing loop of `reason_and_act`: the line is
stripped; a `Thought:` or `Action:` line is appended to the thoughts (an
`Action:` line mentioning `search_global` additionally appends
`Executing Search...`); a `Final Answer:` line overwrites the answer
accumulator with its trimmed remainder. -/
def processLine (acc : List String × String) (line : String) : List String × String :=
  let l := pyStrip line
  if pyStartsWith l "Thought:" then (acc.1 ++ [l], acc.2)
  else if pyStartsWith l "Action:" then
    if pyContains l "search_global" then (acc.1 ++ [l, "Executing Search..."], acc.2)
    else (acc.1 ++ [l], acc.2)
  else if pyStartsWith l "Final Answer:" then
    (acc.1, pyStrip (pyReplace l "Final Answer:" ""))
  else acc

/-- The fallback thought of the All-Weather rule. -/
def allWeatherThought : String :=
  "Fallback: Detected adverse weather context. Rule \x27All-Weather\x27 applies."

/-- The fallback answer of the All-Weather rule. -/
def allWeatherAnswer : String :=
  "(Backup Mode) I have activated the All-Weather mode. Using Sentinel-1 SAR backscatter to penetrate the cloud cover, fused with available optical context."

/-- The fallback thought of the Spatial-Completeness rule. -/
def spatialThought : String :=
  "Fallback: Detected high-resolution requirement. Rule \x27Spatial Completeness\x27 applies."

/-- The fallback answer of the Spatial-Completeness rule. -/
def spatialAnswer : String :=
  "(Backup Mode) I have prioritized Spatial Completeness. Fusing LISS-IV (5.8m) data from ISRO for farm plot structures."

/-- The fallback thought of the default branch. -/
def defaultThought : String := "Fallback: Standard monitoring request."

/-- The fallback answer of the default branch. -/
def defaultAnswer : String :=
  "(Backup Mode) Retrieved standard Sentinel-2 imagery. Conditions are clear."

/-- The weather-keyword test of the fallback heuristic
(`"cloud" in q or "flood" in q or "rain" in q`). -/
def hasWeatherKw (ql : String) : Bool :=
  pyContains ql "cloud" || pyContains ql "flood" || pyContains ql "rain"

/-- The spatial-keyword test of the fallback heuristic
(`"field" in q or "farm" in q or "boundary" in q`). -/
def hasSpatialKw (ql : String) : Bool :=
  pyContains ql "field" || pyContains ql "farm" || pyContains ql "boundary"

/-- The fallback heuristic of `reason_and_act` (run when the gateway signals
retry exhaustion): keyword rules against the lowercased query, weather before
spatial before default; each branch contributes one explanatory thought and
the branch answer. -/
def fallbackStep (q : String) : List String × String :=
  let ql := pyLower q
  if hasWeatherKw ql then ([allWeatherThought], allWeatherAnswer)
  else if hasSpatialKw ql then ([spatialThought], spatialAnswer)
  else ([defaultThought], defaultAnswer)

/-- The constant persona annotation. -/
def agentPersona : String := "Sat-Fusion-AI (Gemini Powered)"

/-- `SatFusionAgent.reason_and_act`.  The retried gateway call is abstracted
as the oracle `env : prompt → Except details text`: `Except.ok` is the text
`_call_llm` returns, `Except.error details` the `RetryError` carrying the
string of the last underlying exception.  State passing makes the Python side
effects explicit: the cache write and the gateway-invocation count. -/
def reason_and_act (env : String → Except String String) (st : AgentState)
    (q : String) (ctx : Option String) : AgentResult × AgentState :=
  let key := normalizeQuery q
  match st.cache.lookup key with
  | some r => (r, st)
  | none =>
    let thoughts0 := ["Received query: \x27" ++ q ++ "\x27"]
    let prompt := buildPrompt q ctx
    let st1 : AgentState := ⟨st.cache, st.llmCalls + 1⟩
    let parsed :=
      match env prompt with
      | Except.ok llmOut =>
        let acc := (pySplitChar '\n' llmOut).foldl processLine (thoughts0, "")
        (acc.1, if acc.2 = "" then llmOut else acc.2)
      | Except.error details =>
        let fb := fallbackStep q
        (thoughts0 ++ ["Info: API Error. Details: " ++ details, "Switching to Offline Mode."]
          ++ fb.1, fb.2)
    let result : AgentResult :=
      { query := q, thoughts := parsed.1, actions := [], answer := parsed.2,
        agent_persona := agentPersona }
    (result, ⟨(key, result) :: st1.cache, st1.llmCalls⟩)

/-- Environment of a gateway call: whether a credential is configured
(`self.client` is non-None) and the outcome of each underlying
`generate_content` attempt (0-based) when a client exists. -/
structure GatewayEnv where
  hasClient : Bool
  attemptResult : ℕ → Except String String

/-- The errors a single (un-retried) `_call_llm` body can raise. -/
inductive LLMErr where
  | credentialMissing
  | transport (msg : String)
deriving DecidableEq

/-- One attempt of the `_call_llm` body: with no client it raises
`ValueError("API Key missing")`; otherwise the underlying model call either
returns text or raises, which the body logs and re-raises. -/
def attemptOnce (env : GatewayEnv) (n : ℕ) : Except LLMErr String :=
  if env.hasClient then
    match env.attemptResult n with
    | Except.ok t => Except.ok t
    | Except.error m => Except.error (LLMErr.transport m)
  else Except.error LLMErr.credentialMissing

/-- Outcome of the tenacity-wrapped call. -/
inductive CallOutcome where
  | success (text : String)
  | retryError (last : LLMErr)
deriving DecidableEq

/-- `_call_llm` under its decorator
`@retry(stop=stop_after_attempt(3), wait=wait_exponential(multiplier=2, min=5, max=20))`:
with no `retry=` predicate tenacity retries on any exception, sleeping the
backoff wait between attempts, and after the third failed attempt raises
`RetryError` wrapping the last exception.  Returns the number of attempts
performed together with the outcome. -/
def call_llm (env : GatewayEnv) : ℕ × CallOutcome :=
  match attemptOnce env 0 with
  | Except.ok t => (1, CallOutcome.success t)
  | Except.error _ =>
    match attemptOnce env 1 with
    | Except.ok t => (2, CallOutcome.success t)
    | Except.error _ =>
      match attemptOnce env 2 with
      | Except.ok t => (3, CallOutcome.success t)
      | Except.error e3 => (3, CallOutcome.retryError e3)

/-- Number of backoff sleeps `wait_exponential` performs during a gateway
call: one before every retry, i.e. one fewer than the attempts made. -/
def backoffWaits (attempts : ℕ) : ℕ := attempts - 1

/-! ### Parsing lemmas -/

/-- The answer-overwriting component of the parsing loop in isolation. -/
def ansStep (a : String) (line : String) : String :=
  let l := pyStrip line
  if pyStartsWith l "Thought:" then a
  else if pyStartsWith l "Action:" then a
  else if pyStartsWith l "Final Answer:" then pyStrip (pyReplace l "Final Answer:" "")
  else a

/-- Spec-side view of the parse: the trimmed remainders of the
`Final Answer:`-prefixed lines, in order of appearance. -/
def answerRemainders (ls : List String) : List String :=
  ls.filterMap fun line =>
    let l := pyStrip line
    if pyStartsWith l "Final Answer:" then some (pyStrip (pyReplace l "Final Answer:" ""))
    else none

lemma pyStartsWith_disjoint {l p1 p2 : String} {c1 c2 : Char} {r1 r2 : List Char}
    (e1 : p1.data = c1 :: r1) (e2 : p2.data = c2 :: r2) (hne : c1 ≠ c2)
    (h : pyStartsWith l p1 = true) : pyStartsWith l p2 = false := by
  rw [pyStartsWith, List.isPrefixOf_iff_prefix] at h
  by_contra hF
  rw [Bool.not_eq_false, pyStartsWith, List.isPrefixOf_iff_prefix] at hF
  obtain ⟨t1, ht1⟩ := h
  obtain ⟨t2, ht2⟩ := hF
  rw [e1] at ht1
  rw [e2] at ht2
  rw [← ht1] at ht2
  simp only [List.cons_append] at ht2
  injection ht2 with hc _
  exact hne hc.symm

lemma processLine_snd (acc : List String × String) (line : String) :
    (processLine acc line).2 = ansStep acc.2 line := by
  simp only [processLine, ansStep]
  split_ifs <;> rfl

lemma foldl_processLine_snd (ls : List String) :
    ∀ (t : List String) (a : String), (ls.foldl processLine (t, a)).2 = ls.foldl ansStep a := by
  induction ls with
  | nil => intro t a; rfl
  | cons x xs ih =>
    intro t a
    simp only [List.foldl]
    calc (xs.foldl processLine (processLine (t, a) x)).2
        = (xs.foldl processLine ((processLine (t, a) x).1, (processLine (t, a) x).2)).2 := by
          rw [Prod.mk.eta]
      _ = xs.foldl ansStep (processLine (t, a) x).2 := ih _ _
      _ = xs.foldl ansStep (ansStep a x) := by rw [processLine_snd]

lemma getLast_getD_cons {α : Type} : ∀ (l : List α) (y a : α),
    ((y :: l).getLast?).getD a = (l.getLast?).getD y := by
  intro l
  induction l with
  | nil => intro y a; rfl
  | cons z zs ih =>
    intro y a
    rw [List.getLast?_cons_cons]
    have hsome : ∃ w, (z :: zs).getLast? = some w := by
      cases hzz : (z :: zs).getLast? with
      | none => exact absurd (List.getLast?_eq_none_iff.mp hzz) (by simp)
      | some w => exact ⟨w, rfl⟩
    obtain ⟨w, hw⟩ := hsome
    rw [hw]
    rfl

lemma foldl_ansStep_eq (ls : List String) :
    ∀ a, ls.foldl ansStep a = ((answerRemainders ls).getLast?).getD a := by
  induction ls with
  | nil => intro a; rfl
  | cons x xs ih =>
    intro a
    simp only [List.foldl, answerRemainders, List.filterMap_cons]
    by_cases hF : pyStartsWith (pyStrip x) "Final Answer:" = true
    · have hT : pyStartsWith (pyStrip x) "Thought:" = false :=
        @pyStartsWith_disjoint _ _ _ 'F' 'T' _ _ rfl rfl (by decide) hF
      have hA : pyStartsWith (pyStrip x) "Action:" = false :=
        @pyStartsWith_disjoint _ _ _ 'F' 'A' _ _ rfl rfl (by decide) hF
      have hstep : ansStep a x = pyStrip (pyReplace (pyStrip x) "Final Answer:" "") := by
        simp only [ansStep]
        rw [if_neg (by simp [hT]), if_neg (by simp [hA]), if_pos hF]
      rw [hstep, if_pos hF]
      rw [ih (pyStrip (pyReplace (pyStrip x) "Final Answer:" ""))]
      exact (getLast_getD_cons _ _ _).symm
    · have hstep : ansStep a x = a := by
        simp only [ansStep]
        by_cases h1 : pyStartsWith (pyStrip x) "Thought:" = true
        · rw [if_pos h1]
        · rw [if_neg h1]
          by_cases h2 : pyStartsWith (pyStrip x) "Action:" = true
          · rw [if_pos h2]
          · rw [if_neg h2, if_neg hF]
      rw [hstep, if_neg hF, ih a]
      rfl

/-! ### Claim C2 (corrected): how the answer is extracted from the output -/

/-- Claim C2, amended: on the success path the answer is the trimmed remainder
of the LAST `Final Answer:`-prefixed line (each matching line overwrites the
accumulator); if no such line exists — or the last remainder is empty, since
the code tests the accumulator for emptiness — the entire raw model output
becomes the answer. -/
theorem claim_C2 (env : String → Except String String) (st : AgentState) (q : String)
    (ctx : Option String) (out : String)
    (hmiss : st.cache.lookup (normalizeQuery q) = none)
    (hok : env (buildPrompt q ctx) = Except.ok out) :
    (answerRemainders (pySplitChar '\n' out) = [] →
      (reason_and_act env st q ctx).1.answer = out)
    ∧ ∀ a, (answerRemainders (pySplitChar '\n' out)).getLast? = some a →
      (reason_and_act env st q ctx).1.answer = if a = "" then out else a := by
  have hans : (reason_and_act env st q ctx).1.answer =
      (if ((answerRemainders (pySplitChar '\n' out)).getLast?).getD "" = "" then out
       else ((answerRemainders (pySplitChar '\n' out)).getLast?).getD "") := by
    simp only [reason_and_act, hmiss, hok, foldl_processLine_snd, foldl_ansStep_eq]
  constructor
  · intro hnil
    rw [hans, hnil]
    rfl
  · intro a ha
    rw [hans, ha]
    rfl

/-- Claim C2 as frozen is false at two concrete outputs: with two
`Final Answer:` lines the answer is the second line's remainder `"B"`, not the
first line's `"A"`; and with a single `Final Answer:` line whose remainder is
empty the answer is the whole raw output, not the (empty) trimmed remainder. -/
theorem claim_C2_cex :
    (reason_and_act (fun _ => Except.ok "Final Answer: A\nFinal Answer: B")
      ⟨[], 0⟩ "q" none).1.answer = "B"
    ∧ ("B" : String) ≠ "A"
    ∧ (reason_and_act (fun _ => Except.ok "Final Answer:")
        ⟨[], 0⟩ "q" none).1.answer = "Final Answer:"
    ∧ ("Final Answer:" : String) ≠ "" := by
  refine ⟨by decide, by decide, by decide, by decide⟩

/-- Witness for `claim_C2` on the two-final-answer-line output. -/
theorem claim_C2_witness :
    (reason_and_act (fun _ => Except.ok "Final Answer: A\nFinal Answer: B")
      ⟨[], 0⟩ "q" none).1.answer = "B" := by
  have h := (claim_C2 (fun _ => Except.ok "Final Answer: A\nFinal Answer: B")
    ⟨[], 0⟩ "q" none "Final Answer: A\nFinal Answer: B" rfl rfl).2 "B" (by decide)
  rw [h, if_neg (by decide)]

/-! ### Claim C3 (corrected): gateway behaviour without a credential -/

/-- Claim C3, amended: with no credential configured every attempt of
`_call_llm` raises the missing-credential `ValueError`, and the retry
decorator — which retries on any exception — still performs 3 attempts with 2
backoff waits between them before failing with `RetryError` wrapping the
credential error; it does not fail fast on the first attempt. -/
theorem claim_C3 (env : GatewayEnv) (h : env.hasClient = false) :
    call_llm env = (3, CallOutcome.retryError LLMErr.credentialMissing)
    ∧ backoffWaits (call_llm env).1 = 2 := by
  have ha : ∀ n, attemptOnce env n = Except.error LLMErr.credentialMissing := by
    intro n
    simp [attemptOnce, h]
  constructor
  · rw [call_llm, ha 0, ha 1, ha 2]
  · rw [call_llm, ha 0, ha 1, ha 2]
    rfl

/-- Claim C3 as frozen is false: with no credential the gateway performs 3
attempts (not 1, i.e. it retries) before failing with `RetryError` wrapping the
missing-credential error. -/
theorem claim_C3_cex :
    (call_llm ⟨false, fun _ => Except.ok "unused"⟩).1 = 3
    ∧ (call_llm ⟨false, fun _ => Except.ok "unused"⟩).1 ≠ 1
    ∧ (call_llm ⟨false, fun _ => Except.ok "unused"⟩).2
        = CallOutcome.retryError LLMErr.credentialMissing :=
  ⟨rfl, by decide, rfl⟩

/-- Witness for `claim_C3` at a concrete credential-less environment. -/
theorem claim_C3_witness :
    call_llm ⟨false, fun _ => Except.ok "unused"⟩
      = (3, CallOutcome.retryError LLMErr.credentialMissing) :=
  (claim_C3 ⟨false, fun _ => Except.ok "unused"⟩ rfl).1

/-! ### Claim C6 (confirmed): fallback keyword precedence -/

/-- Claim C6: with the cache missed and retries exhausted, the fallback
applies the keyword rules to the lowercased query in strict precedence order —
weather (`cloud`/`flood`/`rain`), then spatial (`field`/`farm`/`boundary`),
then the default — each branch appending its explanatory thought (observed as
the final thought) before setting the branch answer; the spec's two example
queries hit the weather rule and the spatial rule respectively. -/
theorem claim_C6 (env : String → Except String String) (st : AgentState) (q : String)
    (ctx : Option String) (d : String)
    (hmiss : st.cache.lookup (normalizeQuery q) = none)
    (herr : env (buildPrompt q ctx) = Except.error d) :
    ((hasWeatherKw (pyLower q) = true →
      (reason_and_act env st q ctx).1.answer = allWeatherAnswer
      ∧ ((reason_and_act env st q ctx).1.thoughts).getLast? = some allWeatherThought)
    ∧ (hasWeatherKw (pyLower q) = false → hasSpatialKw (pyLower q) = true →
      (reason_and_act env st q ctx).1.answer = spatialAnswer
      ∧ ((reason_and_act env st q ctx).1.thoughts).getLast? = some spatialThought)
    ∧ (hasWeatherKw (pyLower q) = false → hasSpatialKw (pyLower q) = false →
      (reason_and_act env st q ctx).1.answer = defaultAnswer
      ∧ ((reason_and_act env st q ctx).1.thoughts).getLast? = some defaultThought))
    ∧ (reason_and_act (fun _ => Except.error "err") ⟨[], 0⟩
        "Assess flood damage in Assam, it is very cloudy and raining" none).1.answer
        = allWeatherAnswer
    ∧ (reason_and_act (fun _ => Except.error "err") ⟨[], 0⟩
        "I need precise field boundaries for my farm" none).1.answer = spatialAnswer := by
  refine ⟨?_, by decide, by decide⟩
  have hred : (reason_and_act env st q ctx).1 =
      { query := q,
        thoughts := ["Received query: \x27" ++ q ++ "\x27"]
          ++ ["Info: API Error. Details: " ++ d, "Switching to Offline Mode."]
          ++ (fallbackStep q).1,
        actions := [], answer := (fallbackStep q).2, agent_persona := agentPersona } := by
    simp only [reason_and_act, hmiss, herr]
  refine ⟨?_, ?_, ?_⟩
  · intro hw
    rw [hred]
    simp only [fallbackStep, hw, if_true]
    exact ⟨trivial, by rw [List.getLast?_concat]⟩
  · intro hw hsp
    rw [hred]
    simp only [fallbackStep, hw, hsp, Bool.false_eq_true, if_false, if_true]
    exact ⟨trivial, by rw [List.getLast?_concat]⟩
  · intro hw hsp
    rw [hred]
    simp only [fallbackStep, hw, hsp, Bool.false_eq_true, if_false]
    exact ⟨trivial, by rw [List.getLast?_concat]⟩

/-- Witness for `claim_C6` at the spec's flood-damage query. -/
theorem claim_C6_witness :
    (reason_and_act (fun _ => Except.error "err") ⟨[], 0⟩
      "Assess flood damage in Assam, it is very cloudy and raining" none).1.answer
      = allWeatherAnswer
    ∧ ((reason_and_act (fun _ => Except.error "err") ⟨[], 0⟩
      "Assess flood damage in Assam, it is very cloudy and raining" none).1.thoughts).getLast?
      = some allWeatherThought :=
  (claim_C6 (fun _ => Except.error "err") ⟨[], 0⟩
    "Assess flood damage in Assam, it is very cloudy and raining" none "err"
    rfl rfl).1.1 (by decide)

/-! ### Claim C7 (confirmed): idempotent cache on normalized queries -/

lemma reason_and_act_cache (env : String → Except String String) (st : AgentState)
    (q : String) (ctx : Option String) :
    ((reason_and_act env st q ctx).2).cache.lookup (normalizeQuery q)
      = some ((reason_and_act env st q ctx).1) := by
  rw [reason_and_act]
  cases hl : st.cache.lookup (normalizeQuery q) with
  | some r => exact hl
  | none => simp [hl, List.lookup]

lemma reason_and_act_hit (env : String → Except String String) (st : AgentState)
    (q : String) (ctx : Option String) (r : AgentResult)
    (h : st.cache.lookup (normalizeQuery q) = some r) :
    reason_and_act env st q ctx = (r, st) := by
  simp only [reason_and_act, h]

/-- Claim C7: whenever two queries agree after lowercasing and trimming, a
second `reason_and_act` call returns exactly the first call's result and state
(so no second gateway invocation and no other side effect), and every
completed result is stored in the cache under the normalized query key. -/
theorem claim_C7 (env : String → Except String String) (st : AgentState)
    (q1 q2 : String) (ctx1 ctx2 : Option String)
    (hnorm : normalizeQuery q1 = normalizeQuery q2) :
    reason_and_act env ((reason_and_act env st q1 ctx1).2) q2 ctx2
      = reason_and_act env st q1 ctx1
    ∧ ((reason_and_act env st q1 ctx1).2).cache.lookup (normalizeQuery q1)
        = some ((reason_and_act env st q1 ctx1).1) := by
  refine ⟨?_, reason_and_act_cache env st q1 ctx1⟩
  have hhit := reason_and_act_hit env ((reason_and_act env st q1 ctx1).2) q2 ctx2
    ((reason_and_act env st q1 ctx1).1)
    (by rw [← hnorm]; exact reason_and_act_cache env st q1 ctx1)
  rw [hhit]

/-- Witness for `claim_C7`: `"Show Crops"` and `" show crops "` share a cache
entry, so the second call returns the first call's result and state verbatim. -/
theorem claim_C7_witness :
    reason_and_act (fun _ => Except.ok "Final Answer: done")
      ((reason_and_act (fun _ => Except.ok "Final Answer: done")
        ⟨[], 0⟩ "Show Crops" none).2) " show crops " none
      = reason_and_act (fun _ => Except.ok "Final Answer: done") ⟨[], 0⟩ "Show Crops" none :=
  (claim_C7 (fun _ => Except.ok "Final Answer: done") ⟨[], 0⟩
    "Show Crops" " show crops " none none (by decide)).1

end UniEarth
